import Mathlib

/-!
Verification of the monkey-patch static scanner
(`repo_scripts/scan_monkey_patches.py`) and of its downstream risk
classifier (`repo_scripts/monkey_patch_classify.py`).

The Python source is embedded shallowly:

* a source file is a pair of its physical lines and its parse result
  (the CPython parser itself is not modelled: a `PyFile` carries the
  syntax tree that `ast.parse` produces for those lines, and concrete
  instances used in theorems were checked by hand against CPython);
* the subset of the Python abstract syntax tree that the scanner reacts
  to is the inductive types `Expr` and `Stmt` below;
* the visitor traversal of `MonkeyPatchScanner` is modelled as the
  event list `scan_events_*` (one event per detection-callback
  invocation, in traversal order) together with the per-event emission
  functions (`handle_assignment_target`, `visit_Call_emit`, ...), so
  that the finding list of the tree pass is the concatenation of the
  emissions of the events in order, exactly as in the source;
* the four regular expressions of `regex_fallback` are implemented
  directly over character lists (they are simple enough that their
  backtracking semantics is deterministic, see the comments there);
* run-to-run variation of `main` (the wall-clock timestamp used for the
  output directory and SUMMARY.md) enters the model as an explicit
  `clock` argument.

Machine integers do not occur (all Python ints involved are small
non-negative line numbers, modelled as `Nat`; the one subtraction, in
`_near_import`, is modelled as the absolute difference, matching
`abs(lineno - li)` on Python ints).
-/

/-! ### Small string helpers (ASCII versions of the Python str methods used) -/

def is_word_char (c : Char) : Bool := c.isAlphanum || c == '_'

def drop_space : List Char → List Char
  | [] => []
  | c :: rest => if c.isWhitespace then drop_space rest else c :: rest

/-- Python `str.strip()` (ASCII whitespace). -/
def strip (s : String) : String :=
  String.mk ((drop_space (drop_space s.toList).reverse).reverse)

/-- Python `str.rstrip()` (ASCII whitespace). -/
def rstrip (s : String) : String :=
  String.mk (drop_space s.toList.reverse).reverse

def split_dot_go : List Char → List Char → List String
  | [], cur => [String.mk cur.reverse]
  | c :: rest, cur =>
    if c == '.' then String.mk cur.reverse :: split_dot_go rest []
    else split_dot_go rest (c :: cur)

/-- Python `s.split(".")`: never empty, `""` splits to `[""]`. -/
def split_dot (s : String) : List String := split_dot_go s.toList []

def leads_with : List Char → List Char → Bool
  | [], _ => true
  | _ :: _, [] => false
  | a :: as, b :: bs => a == b && leads_with as bs

/-- Python `s.endswith(suf)`. -/
def str_ends_with (s suf : String) : Bool :=
  leads_with suf.toList.reverse s.toList.reverse

/-- Right-align a string in a field of width `w` (Python format `>w`). -/
def left_pad (w : Nat) (s : String) : String :=
  String.mk (List.replicate (w - s.toList.length) ' ') ++ s

def join_with (sep : String) : List String → String
  | [] => ""
  | [x] => x
  | x :: rest => x ++ sep ++ join_with sep rest

def starts_hash (s : String) : Bool :=
  match s.toList with
  | '#' :: _ => true
  | _ => false

/-- 1-based `enumerate(lines, start=1)`. -/
def list_enum1 {α : Type} (l : List α) : List (Nat × α) :=
  l.enum.map (fun p => (p.1 + 1, p.2))

/-- Python truthiness of an optional string (`None` and `""` are falsy). -/
def opt_truthy : Option String → Bool
  | none => false
  | some s => !(s == "")

/-! ### The embedded Python abstract syntax tree

Only the node shapes the scanner reads are distinguished; every other
expression kind (constants, dict/tuple/list displays, lambdas, binary
operations, ...) is `Expr.other` with its child expressions, which is
all `ast.NodeVisitor.generic_visit` sees of them.  `Expr.call` carries
its own line number because `visit_Call` reads `node.lineno`; simple
statements carry theirs for the same reason.  `Stmt.compound` stands
for the non-definition compound statements (`if`, `for`, `while`,
`with`, `try`): the visitor treats them all identically, visiting their
child expressions and child statement lists. -/

inductive Expr where
  | name (id : String)
  | attr (value : Expr) (a : String)
  | subscript (value : Expr) (slice : Expr)
  | call (lineno : Nat) (func : Expr) (args : List Expr)
  | strLit (s : String)
  | other (children : List Expr)

inductive Stmt where
  | assign (targets : List Expr) (value : Expr) (lineno : Nat)
  | annAssign (target : Expr) (others : List Expr) (lineno : Nat)
  | augAssign (target : Expr) (value : Expr) (lineno : Nat)
  | exprStmt (value : Expr) (lineno : Nat)
  | delete (targets : List Expr) (lineno : Nat)
  | importStmt (names : List (String × Option String)) (lineno : Nat)
  | importFrom (module : Option String) (names : List (String × Option String)) (lineno : Nat)
  | functionDef (name : String) (decorators : List (Nat × Expr)) (body : List Stmt) (lineno : Nat)
  | asyncFunctionDef (name : String) (decorators : List (Nat × Expr)) (body : List Stmt) (lineno : Nat)
  | classDef (name : String) (decorators : List (Nat × Expr)) (body : List Stmt) (lineno : Nat)
  | compound (tests : List Expr) (body : List Stmt) (lineno : Nat)

/-! ### Category and intent constants (verbatim from the source) -/

def CATEGORY_ATTRIBUTE_REASSIGNMENT : String := "attribute_reassignment_on_import"
def CATEGORY_SETATTR : String := "setattr_on_import_or_class"
def CATEGORY_SYS_MODULES : String := "sys_modules_assignment"
def CATEGORY_BUILTINS : String := "builtins_mutation"
def CATEGORY_IMPORT_TIME : String := "import_time_side_effect"
def CATEGORY_TEST_PATCH_MISUSE : String := "test_patch_misuse"
def CATEGORY_GLOBAL_ENV : String := "global_env_mutation"
def CATEGORY_SINGLETON_REBIND : String := "singleton_rebind"
def CATEGORY_OTHER : String := "other"

def INTENT_MODULE_INJECTION : String := "module injection/aliasing"
def INTENT_OVERRIDE_THIRD_PARTY : String := "override third-party behavior"
def INTENT_NON_SCOPED_TEST_PATCH : String := "non-scoped test patch"
def INTENT_GLOBAL_RUNTIME_CHANGE : String := "global runtime change"
def INTENT_IMPORT_TIME_OVERRIDE : String := "import-time behavior override"
def INTENT_UNSPECIFIED : String := "unspecified monkey patch"

def KNOWN_SINGLETON_BASES : List String := ["logging", "warnings"]

def DEFAULT_CONTEXT_LINES : Nat := 2

/-! ### The Finding dataclass -/

structure Finding where
  file : String
  line : Nat
  code : String
  category : String
  intent : String
  import_base : Option String
  is_test : Bool
  is_module_scope : Bool
  function : Option String
  class_name : Option String
  nearby_comment : Option String
  context : String
  git_author : Option String
  git_commit : Option String
  git_commit_date : Option String
deriving DecidableEq, Repr, Inhabited

/-! ### ImportResolver (`class ImportResolver(ast.NodeVisitor)`)

Maps are association lists in which an insert prepends its pair, and a
lookup takes the first match, which gives Python dict overwrite
semantics.  `ImportResolver` has no definition handlers, so its
traversal recurses into every statement body (function and class
bodies included). -/

structure ImportResolver where
  alias_to_module : List (String × String)
  alias_is_from_object : List (String × String × String)
  import_lines : List Nat
deriving DecidableEq, Repr

def empty_resolver : ImportResolver :=
  { alias_to_module := [], alias_is_from_object := [], import_lines := [] }

def alookup (l : List (String × String)) (k : String) : Option String :=
  (l.find? (fun p => p.1 == k)).map (fun p => p.2)

/-- `mod.split(".")[-1]` -/
def last_component (mod : String) : String := (split_dot mod).getLastD mod

/-- `ImportResolver.visit_Import`: for each alias, `asname or mod.split(".")[-1]`
maps to the full dotted module path. -/
def resolver_visit_Import (r : ImportResolver) (names : List (String × Option String))
    (lineno : Nat) : ImportResolver :=
  { r with
    import_lines := r.import_lines ++ [lineno],
    alias_to_module :=
      names.foldl (fun m p => (p.2.getD (last_component p.1), p.1) :: m) r.alias_to_module }

/-- `ImportResolver.visit_ImportFrom`: alias maps to `module.object`
(`node.module or ""` when the module part is missing). -/
def resolver_visit_ImportFrom (r : ImportResolver) (module : Option String)
    (names : List (String × Option String)) (lineno : Nat) : ImportResolver :=
  let m := module.getD ""
  { r with
    import_lines := r.import_lines ++ [lineno],
    alias_to_module :=
      names.foldl
        (fun t p => (p.2.getD p.1, if m == "" then p.1 else m ++ "." ++ p.1) :: t)
        r.alias_to_module,
    alias_is_from_object :=
      names.foldl (fun t p => (p.2.getD p.1, (m, p.1)) :: t) r.alias_is_from_object }

mutual
def resolve_stmt (r : ImportResolver) : Stmt → ImportResolver
  | .importStmt names ℓ => resolver_visit_Import r names ℓ
  | .importFrom m names ℓ => resolver_visit_ImportFrom r m names ℓ
  | .functionDef _ _ body _ => resolve_stmts r body
  | .asyncFunctionDef _ _ body _ => resolve_stmts r body
  | .classDef _ _ body _ => resolve_stmts r body
  | .compound _ body _ => resolve_stmts r body
  | _ => r
def resolve_stmts (r : ImportResolver) : List Stmt → ImportResolver
  | [] => r
  | s :: rest => resolve_stmts (resolve_stmt r s) rest
end

def file_resolver (tree : List Stmt) : ImportResolver := resolve_stmts empty_resolver tree

/-! ### ScopeTracker (`class ScopeTracker(ast.NodeVisitor)`) -/

/-- `ScopeTracker.current()`: module scope iff the stack is empty; the
innermost function and class names are found by walking `reversed(self.stack)`
and keeping the first entry of each kind. -/
def scope_current_go : List (String × String) → Option String → Option String →
    Option String × Option String
  | [], fn, cl => (fn, cl)
  | (t, n) :: rest, fn, cl =>
    scope_current_go rest
      (if t == "function" && fn.isNone then some n else fn)
      (if t == "class" && cl.isNone then some n else cl)

def scope_current (stack : List (String × String)) :
    Bool × Option String × Option String :=
  let p := scope_current_go stack.reverse none none
  (stack.isEmpty, p.1, p.2)

/- The ScopeTracker traversal itself: push on entering a definition
(`stack.append`, i.e. at the end of the list), recurse into the body,
pop on leaving.  It emits nothing; its net effect on the stack is the
identity (theorem `scope_visit_id` below). -/
mutual
def scope_visit_stmt (st : List (String × String)) : Stmt → List (String × String)
  | .functionDef n _ body _ => (scope_visit_stmts (st ++ [("function", n)]) body).dropLast
  | .asyncFunctionDef n _ body _ => (scope_visit_stmts (st ++ [("function", n)]) body).dropLast
  | .classDef n _ body _ => (scope_visit_stmts (st ++ [("class", n)]) body).dropLast
  | .compound _ body _ => scope_visit_stmts st body
  | _ => st
def scope_visit_stmts (st : List (String × String)) : List Stmt → List (String × String)
  | [] => st
  | s :: rest => scope_visit_stmts (scope_visit_stmt st s) rest
end

/-! ### Pattern helper functions -/

/-- `dotted_name_from_attribute`: the dotted path of a chain of
attribute accesses rooted at a plain name, else `None`. -/
def dotted_name_from_attribute : Expr → Option String
  | .name i => some i
  | .attr v a => (dotted_name_from_attribute v).map (fun s => s ++ "." ++ a)
  | _ => none

/-- `_is_sys_modules`: a subscript whose value is `sys.modules`. -/
def is_sys_modules : Expr → Bool
  | .subscript (.attr (.name "sys") "modules") _ => true
  | _ => false

/-- `_is_os_environ`: a subscript whose value is `os.environ`. -/
def is_os_environ : Expr → Bool
  | .subscript (.attr (.name "os") "environ") _ => true
  | _ => false

/-- `base_module_name`: first dotted component, `None` for a falsy module. -/
def base_module_name (mod : String) : Option String :=
  if mod == "" then none else some ((split_dot mod).headD "")

/-- `is_alias_external`: import base of an alias and whether it is
outside the project packages.  Returns `(False, None)` when the alias
does not resolve; note the base is returned even when it is the empty
string (then reported non-external), exactly as in the source. -/
def is_alias_external (al : String) (r : ImportResolver) (project_pkgs : List String) :
    Bool × Option String :=
  match alookup r.alias_to_module al with
  | none => (false, none)
  | some mod =>
    match base_module_name mod with
    | none => (false, none)
    | some base => ((if base == "" then false else !(project_pkgs.contains base)), some base)

/-- `_near_import` with its default window of 5 lines. -/
def near_import (lineno : Nat) (import_lines : List Nat) (window : Nat) : Bool :=
  import_lines.any (fun li => (if lineno ≥ li then lineno - li else li - lineno) ≤ window)

/-- `_is_patch_name`. -/
def is_patch_name (r : ImportResolver) (n : String) : Bool :=
  match alookup r.alias_to_module n with
  | none => n == "patch"
  | some m =>
    if m == "" then n == "patch"
    else str_ends_with m ".patch" || m == "unittest.mock.patch"

/-- `_is_patch_call` (shape test on the function part of a call). -/
def is_patch_call (r : ImportResolver) (func : Expr) : Bool :=
  match func with
  | .name i => is_patch_name r i
  | .attr v a =>
    match dotted_name_from_attribute (.attr v a) with
    | some d => str_ends_with d ".patch"
    | none => false
  | _ => false

/-- `_is_patch_decorator`. -/
def is_patch_decorator (r : ImportResolver) (dec : Expr) : Bool :=
  match dec with
  | .call _ f _ => is_patch_call r f
  | .name i => is_patch_name r i
  | .attr v a =>
    match dotted_name_from_attribute (.attr v a) with
    | some d => str_ends_with d ".patch"
    | none => false
  | _ => false

/-- `classify_intent`. -/
def classify_intent (category : String) (import_base : Option String) (is_test : Bool) :
    String :=
  if category == CATEGORY_SYS_MODULES then INTENT_MODULE_INJECTION
  else if category == CATEGORY_BUILTINS then INTENT_GLOBAL_RUNTIME_CHANGE
  else if category == CATEGORY_IMPORT_TIME then INTENT_IMPORT_TIME_OVERRIDE
  else if category == CATEGORY_TEST_PATCH_MISUSE && is_test then INTENT_NON_SCOPED_TEST_PATCH
  else if opt_truthy import_base &&
      (category == CATEGORY_ATTRIBUTE_REASSIGNMENT || category == CATEGORY_SETATTR ||
        category == CATEGORY_SINGLETON_REBIND) then
    INTENT_OVERRIDE_THIRD_PARTY
  else INTENT_UNSPECIFIED

/-- `is_path_in_tests`: does `"tests"` occur among the path components
of the file, relative to the repository root. -/
def is_path_in_tests (parts : List String) : Bool := parts.contains "tests"

/-- `get_context`: a window of `n` lines around `lineno`, each prefixed
with a right-aligned counter (the source numbers the window lines from
1, not with their absolute line numbers). -/
def get_context (lines : List String) (lineno : Nat) (n : Nat) : String :=
  let i := max 1 (lineno - n)
  let j := min lines.length (lineno + n)
  let segment := (lines.drop (i - 1)).take (j - (i - 1))
  join_with "\n" (segment.enum.map (fun p => left_pad 5 (toString (p.1 + 1)) ++ ": " ++ p.2))

def collect_comments : List String → List String
  | [] => []
  | l :: rest =>
    let s := strip l
    if starts_hash s then s :: collect_comments rest
    else if s == "" then s :: collect_comments rest
    else []

/-- `get_nearby_comment` with its default lookback of 5 lines:
the contiguous block of comment lines (blank lines allowed between
them) immediately above `lineno`. -/
def get_nearby_comment (lines : List String) (lineno : Nat) : Option String :=
  let lookback := 5
  let start := lineno - 2 - lookback
  let window := (lines.drop start).take ((lineno - 1) - start)
  let collected := (collect_comments window.reverse).reverse
  let text := strip (join_with "\n" collected)
  if text == "" then none else some text

/-! ### MonkeyPatchScanner

`MonkeyPatchScanner.generic_visit` routes `FunctionDef`,
`AsyncFunctionDef` and `ClassDef` nodes wholesale into
`self.scope.visit(node)`: the ScopeTracker traverses the definition
body with its own visitor (which has no detection callbacks and emits
nothing) and restores the stack before returning (`scope_visit_id`
below).  Consequently the detection callbacks of the scanner itself run
only outside definition bodies, always with the stack it started with.

The traversal is modelled as the list of detection-callback invocations
(`ScanEvent`s) in traversal order; the finding list of the tree pass is
the concatenation of the per-event emissions. -/

structure ScanCtx where
  file : String
  lines : List String
  resolver : ImportResolver
  project_pkgs : List String
  is_test : Bool
  context_lines : Nat

/-- `MonkeyPatchScanner._add_finding` (note: it passes the constant
`DEFAULT_CONTEXT_LINES` to `get_context`, not `self.context_lines`). -/
def add_finding (ctx : ScanCtx) (lineno : Nat) (category : String)
    (import_base : Option String) (is_module_scope : Bool)
    (fn_name cl_name : Option String) : Finding :=
  { file := ctx.file
    line := lineno
    code :=
      if 1 ≤ lineno && lineno ≤ ctx.lines.length then rstrip (ctx.lines.getD (lineno - 1) "")
      else ""
    category := category
    intent := classify_intent category import_base ctx.is_test
    import_base := import_base
    is_test := ctx.is_test
    is_module_scope := is_module_scope
    function := fn_name
    class_name := cl_name
    nearby_comment := get_nearby_comment ctx.lines lineno
    context := get_context ctx.lines lineno DEFAULT_CONTEXT_LINES
    git_author := none
    git_commit := none
    git_commit_date := none }

inductive ScanEvent where
  | assignTarget (stack : List (String × String)) (lineno : Nat) (t : Expr)
  | callExpr (stack : List (String × String)) (lineno : Nat) (func : Expr) (args : List Expr)
  | deleteTarget (stack : List (String × String)) (lineno : Nat) (t : Expr)
  | decorator (stack : List (String × String)) (lineno : Nat) (dec : Expr)
      (fn_name cl_name : Option String)

def event_stack : ScanEvent → List (String × String)
  | .assignTarget st _ _ => st
  | .callExpr st _ _ _ => st
  | .deleteTarget st _ _ => st
  | .decorator st _ _ _ _ => st

/-- The per-target body of `MonkeyPatchScanner._handle_assignment`
(the loop body over `targets`; each `continue` ends the branch chain). -/
def handle_assignment_target (ctx : ScanCtx) (st : List (String × String))
    (lineno : Nat) (t : Expr) : List Finding :=
  let cur := scope_current st
  -- sys.modules[...]
  if is_sys_modules t then
    [add_finding ctx lineno CATEGORY_SYS_MODULES (some "sys") cur.1 cur.2.1 cur.2.2]
  else
    match t with
    -- builtins.X = ...
    | .attr (.name "builtins") _ =>
      [add_finding ctx lineno CATEGORY_BUILTINS (some "builtins") cur.1 cur.2.1 cur.2.2]
    | _ =>
      -- os.environ[...]
      if is_os_environ t then
        [add_finding ctx lineno CATEGORY_GLOBAL_ENV (some "os") cur.1 cur.2.1 cur.2.2]
      else
        match t with
        | .attr v a =>
          -- logging.getLogger = ... or warnings.filterwarnings = ...
          let dotted := dotted_name_from_attribute (.attr v a)
          let singleton_hit :=
            match dotted with
            | some d =>
              let base := (split_dot d).headD ""
              if KNOWN_SINGLETON_BASES.contains base && (d.toList.contains '.') then
                some base
              else none
            | none => none
          match singleton_hit with
          | some base =>
            [add_finding ctx lineno CATEGORY_SINGLETON_REBIND (some base) cur.1 cur.2.1 cur.2.2]
          | none =>
            -- pkg.attr = ... where pkg alias imported (nested attributes supported)
            let base_alias : Option String :=
              match v with
              | .name i => some i
              | _ =>
                match dotted with
                | some d => if d.toList.contains '.' then some ((split_dot d).headD "") else none
                | none => none
            match base_alias with
            | none => []
            | some al =>
              if al == "" then []   -- Python: `if base_alias:` (falsy string)
              else
                let eb := is_alias_external al ctx.resolver ctx.project_pkgs
                match eb.2 with
                | some base =>
                  if base == "" then []   -- Python: `if base:`
                  else
                    [add_finding ctx lineno CATEGORY_ATTRIBUTE_REASSIGNMENT (some base)
                        cur.1 cur.2.1 cur.2.2] ++
                      (if cur.1 && near_import lineno ctx.resolver.import_lines 5 then
                        [add_finding ctx lineno CATEGORY_IMPORT_TIME (some base)
                            cur.1 cur.2.1 cur.2.2]
                      else [])
                | none => []
        | .name i =>
          -- assignment to imported object alias (from X import Y; Y = ...)
          match alookup ctx.resolver.alias_to_module i with
          | none => []
          | some mod =>
            match base_module_name mod with
            | none => []
            | some base =>
              if base == "" then []   -- Python: `if base:`
              else
                [add_finding ctx lineno CATEGORY_ATTRIBUTE_REASSIGNMENT (some base)
                    cur.1 cur.2.1 cur.2.2]
        | _ => []

/-- `args[0]` shape inspection inside the `setattr(...)` branch of
`visit_Call`. -/
def setattr_base_alias : Expr → Option String
  | .name i => some i
  | .attr (.name i) _ => some i
  | _ => none

/-- The emission part of `MonkeyPatchScanner.visit_Call` (before its
`generic_visit`); the four checks are sequential independent `if`s. -/
def visit_Call_emit (ctx : ScanCtx) (st : List (String × String)) (lineno : Nat)
    (func : Expr) (args : List Expr) : List Finding :=
  let cur := scope_current st
  -- setattr(...)
  (match func, args with
    | .name "setattr", t :: _ =>
      let base_alias := setattr_base_alias t
      let eb := if opt_truthy base_alias then
          is_alias_external (base_alias.getD "") ctx.resolver ctx.project_pkgs
        else ((false : Bool), (none : Option String))
      [add_finding ctx lineno CATEGORY_SETATTR eb.2 cur.1 cur.2.1 cur.2.2]
    | _, _ => []) ++
  -- builtins.setattr(...)
  (match func with
    | .attr v a =>
      if dotted_name_from_attribute (.attr v a) == some "builtins.setattr" then
        [add_finding ctx lineno CATEGORY_SETATTR (some "builtins") cur.1 cur.2.1 cur.2.2]
      else []
    | _ => []) ++
  -- patch(...) at module scope not in with/dec
  (if cur.1 && is_patch_call ctx.resolver func then
    [add_finding ctx lineno CATEGORY_TEST_PATCH_MISUSE (some "unittest") cur.1 cur.2.1 cur.2.2]
  else []) ++
  -- os.environ.update(...), setdefault(...)
  (match func with
    | .attr (.attr (.name "os") "environ") m =>
      if m == "update" || m == "setdefault" then
        [add_finding ctx lineno CATEGORY_GLOBAL_ENV (some "os") cur.1 cur.2.1 cur.2.2]
      else []
    | _ => [])

/-- The per-target body of `MonkeyPatchScanner.visit_Delete`. -/
def visit_Delete_emit (ctx : ScanCtx) (st : List (String × String)) (lineno : Nat)
    (t : Expr) : List Finding :=
  let cur := scope_current st
  if is_sys_modules t then
    [add_finding ctx lineno CATEGORY_SYS_MODULES (some "sys") cur.1 cur.2.1 cur.2.2]
  else []

/-- The per-decorator body of `visit_FunctionDef` / `visit_ClassDef`
(note the literal `True` passed for `is_module_scope`, and the
definition name passed as function or class name). -/
def decorator_emit (ctx : ScanCtx) (lineno : Nat) (dec : Expr)
    (fn_name cl_name : Option String) : List Finding :=
  if is_patch_decorator ctx.resolver dec then
    [add_finding ctx lineno CATEGORY_TEST_PATCH_MISUSE (some "unittest") true fn_name cl_name]
  else []

def emit_event (ctx : ScanCtx) : ScanEvent → List Finding
  | .assignTarget st ℓ t => handle_assignment_target ctx st ℓ t
  | .callExpr st ℓ f args => visit_Call_emit ctx st ℓ f args
  | .deleteTarget st ℓ t => visit_Delete_emit ctx st ℓ t
  | .decorator _ ℓ dec fn cl => decorator_emit ctx ℓ dec fn cl

/- The traversal.  Child order follows the AST field order that
`generic_visit` iterates.  Definition statements (and only they) do not
recurse: `generic_visit` hands the whole node to the ScopeTracker,
which emits no events and restores the stack, so the following
statements are traversed with the same stack.  `visit_FunctionDef` and
`visit_ClassDef` first run their decorator loop (guarded by
`scope.current()[0]`); `AsyncFunctionDef` has no visitor on the scanner
and is delegated immediately, so its decorators are never examined. -/
mutual
def scan_events_stmt (st : List (String × String)) : Stmt → List ScanEvent
  | .assign targets value ℓ =>
    targets.map (ScanEvent.assignTarget st ℓ) ++
      scan_events_exprs st targets ++ scan_events_expr st value
  | .annAssign t others ℓ =>
    [ScanEvent.assignTarget st ℓ t] ++ scan_events_expr st t ++ scan_events_exprs st others
  | .augAssign t value ℓ =>
    [ScanEvent.assignTarget st ℓ t] ++ scan_events_expr st t ++ scan_events_expr st value
  | .exprStmt value _ => scan_events_expr st value
  | .delete targets ℓ => targets.map (ScanEvent.deleteTarget st ℓ) ++ scan_events_exprs st targets
  | .importStmt _ _ => []
  | .importFrom _ _ _ => []
  | .functionDef n decorators _ _ =>
    if (scope_current st).1 then
      decorators.map (fun p => ScanEvent.decorator st p.1 p.2 (some n) none)
    else []
  | .asyncFunctionDef _ _ _ _ => []
  | .classDef n decorators _ _ =>
    if (scope_current st).1 then
      decorators.map (fun p => ScanEvent.decorator st p.1 p.2 none (some n))
    else []
  | .compound tests body _ => scan_events_exprs st tests ++ scan_events_stmts st body
def scan_events_stmts (st : List (String × String)) : List Stmt → List ScanEvent
  | [] => []
  | s :: rest => scan_events_stmt st s ++ scan_events_stmts st rest
def scan_events_expr (st : List (String × String)) : Expr → List ScanEvent
  | .name _ => []
  | .strLit _ => []
  | .attr v _ => scan_events_expr st v
  | .subscript v s => scan_events_expr st v ++ scan_events_expr st s
  | .call ℓ f args =>
    [ScanEvent.callExpr st ℓ f args] ++ scan_events_expr st f ++ scan_events_exprs st args
  | .other children => scan_events_exprs st children
def scan_events_exprs (st : List (String × String)) : List Expr → List ScanEvent
  | [] => []
  | e :: rest => scan_events_expr st e ++ scan_events_exprs st rest
end

/-- The finding list of the tree-based pass for one parsed file
(`scanner.visit(tree)`), starting from the empty scope stack. -/
def tree_findings (ctx : ScanCtx) (tree : List Stmt) : List Finding :=
  (scan_events_stmts [] tree).flatMap (emit_event ctx)

/-! ### regex_fallback

The four patterns are simple enough that `re.search` on them is
deterministic:

* `sys\.modules\[[^\]]+\]\s*=\s*` — after the literal, `[^\]]+` can
  only end directly before the first `]` (every `]` terminates it and
  the next pattern char is `\]`), so: at least one non-`]` character,
  then the first `]`, then optional whitespace, then `=`;
* `\bbuiltins\.[A-Za-z_]\w*\s*=\s*` — after the identifier head the
  greedy `\w*` must run to the first non-word character (stopping earlier
  would put a word character where `\s*=` needs whitespace or `=`);
* `\bos\.environ\[[^\]]+\]\s*=\s*` — as for sys.modules;
* `\bsetattr\s*\(` — literal, optional whitespace, `(`.

`re.search` tries every start position; `\b` holds where the previous
character is absent or a non-word character (the patterns all start
with a word character). -/

def eat_lit : List Char → List Char → Option (List Char)
  | [], cs => some cs
  | _ :: _, [] => none
  | l :: ls, c :: cs => if c == l then eat_lit ls cs else none

/-- `\s*=` -/
def match_ws_eq : List Char → Bool
  | [] => false
  | c :: rest => if c.isWhitespace then match_ws_eq rest else c == '='

/-- consume up to and including the first `]`, then `\s*=` -/
def match_rb_ws_eq : List Char → Bool
  | [] => false
  | c :: rest => if c == ']' then match_ws_eq rest else match_rb_ws_eq rest

/-- `[^\]]+\]\s*=` -/
def match_bracket_eq : List Char → Bool
  | [] => false
  | c :: rest => if c == ']' then false else match_rb_ws_eq rest

/-- `\w*\s*=` (maximal word run, then `\s*=`) -/
def match_word_run_eq : List Char → Bool
  | [] => false
  | c :: rest => if is_word_char c then match_word_run_eq rest else match_ws_eq (c :: rest)

/-- `\s*\(` -/
def match_ws_lparen : List Char → Bool
  | [] => false
  | c :: rest => if c.isWhitespace then match_ws_lparen rest else c == '('

def match_sys_modules_at (cs : List Char) : Bool :=
  match eat_lit "sys.modules[".toList cs with
  | some rest => match_bracket_eq rest
  | none => false

def match_builtins_at (cs : List Char) : Bool :=
  match eat_lit "builtins.".toList cs with
  | some rest =>
    match rest with
    | [] => false
    | c :: rest2 => if c.isAlpha || c == '_' then match_word_run_eq rest2 else false
  | none => false

def match_os_environ_at (cs : List Char) : Bool :=
  match eat_lit "os.environ[".toList cs with
  | some rest => match_bracket_eq rest
  | none => false

def match_setattr_at (cs : List Char) : Bool :=
  match eat_lit "setattr".toList cs with
  | some rest => match_ws_lparen rest
  | none => false

/-- `re.search` without word-boundary anchoring. -/
def search_plain (p : List Char → Bool) : List Char → Bool
  | [] => p []
  | c :: rest => p (c :: rest) || search_plain p rest

def search_wb_go (p : List Char → Bool) : Option Char → List Char → Bool
  | _, [] => false
  | prev, c :: rest =>
    ((match prev with
      | none => true
      | some pc => !is_word_char pc) && p (c :: rest)) || search_wb_go p (some c) rest

/-- `re.search` for a pattern starting with `\b` followed by a word
character. -/
def search_wb (p : List Char → Bool) (cs : List Char) : Bool := search_wb_go p none cs

/-- `regex_fallback(lines)`: `(lineno, category)` pairs, first matching
pattern wins per line (`break`), pattern order as in the source. -/
def regex_fallback (lines : List String) : List (Nat × String) :=
  (list_enum1 lines).filterMap (fun p =>
    let cs := (strip p.2).toList
    if search_plain match_sys_modules_at cs then some (p.1, CATEGORY_SYS_MODULES)
    else if search_wb match_builtins_at cs then some (p.1, CATEGORY_BUILTINS)
    else if search_wb match_os_environ_at cs then some (p.1, CATEGORY_GLOBAL_ENV)
    else if search_wb match_setattr_at cs then some (p.1, CATEGORY_SETATTR)
    else none)

/-! ### scan_file -/

/-- One source file: its path components relative to the repository
root, its physical lines, and the result of `ast.parse` on them
(`none` for a syntax error).  Concrete instances used below were
checked by hand against the CPython parser. -/
structure PyFile where
  parts : List String
  lines : List String
  parsed : Option (List Stmt)

/-- `str(file_path.relative_to(repo_root))`. -/
def file_rel_name (parts : List String) : String := join_with "/" parts

def file_ctx (file : PyFile) (project_pkgs : List String) (context_lines : Nat)
    (tree : List Stmt) : ScanCtx :=
  { file := file_rel_name file.parts
    lines := file.lines
    resolver := file_resolver tree
    project_pkgs := project_pkgs
    is_test := is_path_in_tests file.parts
    context_lines := context_lines }

/-- The minimal Finding built for a regex-fallback hit (scope unknown
from regex: assumed module level to surface; note this one uses the
`context_lines` argument). -/
def fallback_finding (ctx : ScanCtx) (lineno : Nat) (category : String) : Finding :=
  { file := ctx.file
    line := lineno
    code :=
      if 1 ≤ lineno && lineno ≤ ctx.lines.length then rstrip (ctx.lines.getD (lineno - 1) "")
      else ""
    category := category
    intent := classify_intent category none ctx.is_test
    import_base := none
    is_test := ctx.is_test
    is_module_scope := true
    function := none
    class_name := none
    nearby_comment := get_nearby_comment ctx.lines lineno
    context := get_context ctx.lines lineno ctx.context_lines
    git_author := none
    git_commit := none
    git_commit_date := none }

/-- The fallback merge loop of `scan_file`: `seen` is the set of
`(line, category)` keys of the tree-based findings, computed once;
hits at a seen key are discarded. -/
def fallback_additions (ctx : ScanCtx) (findings : List Finding) (lines : List String) :
    List Finding :=
  let seen := findings.map (fun f => (f.line, f.category))
  (regex_fallback lines).filterMap (fun h =>
    if seen.contains h then none else some (fallback_finding ctx h.1 h.2))

/-- Result of `scan_file`: either the parse error propagates (strict
mode `raise`) or a finding list is returned; `parse_error_logged`
mirrors the `logging.debug` call on the parse-failure path. -/
inductive ScanOutcome where
  | raised
  | ok (findings : List Finding) (parse_error_logged : Bool)
deriving DecidableEq, Repr

def scan_file (file : PyFile) (project_pkgs : List String) (context_lines : Nat)
    (strict : Bool) : ScanOutcome :=
  match file.parsed with
  | none => if strict then .raised else .ok [] true
  | some tree =>
    let ctx := file_ctx file project_pkgs context_lines tree
    let findings := tree_findings ctx tree
    if strict then .ok findings false
    else .ok (findings ++ fallback_additions ctx findings file.lines) false

def outcome_findings : ScanOutcome → List Finding
  | .raised => []
  | .ok findings _ => findings

def scan_file_findings (file : PyFile) (project_pkgs : List String) (context_lines : Nat)
    (strict : Bool) : List Finding :=
  outcome_findings (scan_file file project_pkgs context_lines strict)

/-- The findings of the tree-based pass alone for a file (empty when
the file does not parse). -/
def file_tree_findings (file : PyFile) (project_pkgs : List String) (context_lines : Nat) :
    List Finding :=
  match file.parsed with
  | none => []
  | some tree => tree_findings (file_ctx file project_pkgs context_lines tree) tree

/-! ### Views of the traversal used to state claims -/

/-- The `(lineno, target)` pairs that `_handle_assignment` processes
when scanning a file, in traversal order (one per assignment target
reached by the scanner, i.e. outside definition bodies). -/
def reach_assign_targets (tree : List Stmt) : List (Nat × Expr) :=
  (scan_events_stmts [] tree).filterMap (fun e =>
    match e with
    | .assignTarget _ ℓ t => some (ℓ, t)
    | _ => none)

/-- The `(lineno, func, args)` triples of the `Call` nodes that
`visit_Call` processes when scanning a file. -/
def reach_calls (tree : List Stmt) : List (Nat × Expr × List Expr) :=
  (scan_events_stmts [] tree).filterMap (fun e =>
    match e with
    | .callExpr _ ℓ f args => some (ℓ, f, args)
    | _ => none)

/- Syntactic containment at ANY scope, in the wording of the spec
("for every source file containing ..."): all assignment targets and
all call nodes of a file, definition bodies and decorators included.
These are spec-side containment predicates, not scanner code. -/
mutual
def all_assign_targets_stmt : Stmt → List (Nat × Expr)
  | .assign targets value ℓ =>
    targets.map (fun t => (ℓ, t)) ++ all_assign_targets_exprs targets ++
      all_assign_targets_expr value
  | .annAssign t others ℓ =>
    [(ℓ, t)] ++ all_assign_targets_expr t ++ all_assign_targets_exprs others
  | .augAssign t value ℓ =>
    [(ℓ, t)] ++ all_assign_targets_expr t ++ all_assign_targets_expr value
  | .exprStmt value _ => all_assign_targets_expr value
  | .delete targets _ => all_assign_targets_exprs targets
  | .importStmt _ _ => []
  | .importFrom _ _ _ => []
  | .functionDef _ _ body _ => all_assign_targets_stmts body
  | .asyncFunctionDef _ _ body _ => all_assign_targets_stmts body
  | .classDef _ _ body _ => all_assign_targets_stmts body
  | .compound tests body _ =>
    all_assign_targets_exprs tests ++ all_assign_targets_stmts body
def all_assign_targets_stmts : List Stmt → List (Nat × Expr)
  | [] => []
  | s :: rest => all_assign_targets_stmt s ++ all_assign_targets_stmts rest
def all_assign_targets_expr : Expr → List (Nat × Expr)
  | .name _ => []
  | .strLit _ => []
  | .attr v _ => all_assign_targets_expr v
  | .subscript v s => all_assign_targets_expr v ++ all_assign_targets_expr s
  | .call _ f args => all_assign_targets_expr f ++ all_assign_targets_exprs args
  | .other children => all_assign_targets_exprs children
def all_assign_targets_exprs : List Expr → List (Nat × Expr)
  | [] => []
  | e :: rest => all_assign_targets_expr e ++ all_assign_targets_exprs rest
end

mutual
def all_calls_stmt : Stmt → List (Nat × Expr × List Expr)
  | .assign targets value _ => all_calls_exprs targets ++ all_calls_expr value
  | .annAssign t others _ => all_calls_expr t ++ all_calls_exprs others
  | .augAssign t value _ => all_calls_expr t ++ all_calls_expr value
  | .exprStmt value _ => all_calls_expr value
  | .delete targets _ => all_calls_exprs targets
  | .importStmt _ _ => []
  | .importFrom _ _ _ => []
  | .functionDef _ decorators body _ =>
    all_calls_exprs (decorators.map (fun p => p.2)) ++ all_calls_stmts body
  | .asyncFunctionDef _ decorators body _ =>
    all_calls_exprs (decorators.map (fun p => p.2)) ++ all_calls_stmts body
  | .classDef _ decorators body _ =>
    all_calls_exprs (decorators.map (fun p => p.2)) ++ all_calls_stmts body
  | .compound tests body _ => all_calls_exprs tests ++ all_calls_stmts body
def all_calls_stmts : List Stmt → List (Nat × Expr × List Expr)
  | [] => []
  | s :: rest => all_calls_stmt s ++ all_calls_stmts rest
def all_calls_expr : Expr → List (Nat × Expr × List Expr)
  | .name _ => []
  | .strLit _ => []
  | .attr v _ => all_calls_expr v
  | .subscript v s => all_calls_expr v ++ all_calls_expr s
  | .call ℓ f args => [(ℓ, f, args)] ++ all_calls_expr f ++ all_calls_exprs args
  | .other children => all_calls_exprs children
def all_calls_exprs : List Expr → List (Nat × Expr × List Expr)
  | [] => []
  | e :: rest => all_calls_expr e ++ all_calls_exprs rest
end

/-- Is this call expression an `os.environ.update(...)` or
`os.environ.setdefault(...)` call (the shape `visit_Call` tests). -/
def is_env_update_call (func : Expr) : Bool :=
  match func with
  | .attr (.attr (.name "os") "environ") m => m == "update" || m == "setdefault"
  | _ => false

/-! ### Directory walk, reports and main -/

def DEFAULT_EXCLUDES : List String :=
  [".git", ".venv", "venv", "__pycache__", "node_modules", "build", "dist",
   ".founder_files", "external", "libraries", "z_FUTURE_IMPIMENTATIONS", "zzz_agent_repos"]

/-- `iter_python_files` restricted to the name-based directory
exclusions (`parts & exclude_dirs`); the glob-pattern exclusions are
not modelled (every use below passes no glob patterns, as
`run_self_test` does). -/
def iter_python_files (files : List PyFile) (exclude_dirs : List String) : List PyFile :=
  files.filter (fun f => !(f.parts.any (fun p => exclude_dirs.contains p)))

def json_escape_char (c : Char) : String :=
  if c == '"' then "\\\""
  else if c == '\\' then "\\\\"
  else if c == '\n' then "\\n"
  else if c == '\t' then "\\t"
  else if c == '\r' then "\\r"
  else String.mk [c]

def json_str (s : String) : String :=
  "\"" ++ String.join (s.toList.map json_escape_char) ++ "\""

def json_opt_str : Option String → String
  | none => "null"
  | some s => json_str s

def json_bool : Bool → String
  | true => "true"
  | false => "false"

/-- One Finding as a JSON object, fields in `asdict` (declaration)
order.  The exact whitespace of `json.dump(..., indent=2)` is not
reproduced; the rendering is a fixed injective function of the same
field values in the same order, which is what the determinism and
ordering claims are about. -/
def finding_json (f : Finding) : String :=
  "\x7b" ++
    join_with ", "
      [json_str "file" ++ ": " ++ json_str f.file,
       json_str "line" ++ ": " ++ toString f.line,
       json_str "code" ++ ": " ++ json_str f.code,
       json_str "category" ++ ": " ++ json_str f.category,
       json_str "intent" ++ ": " ++ json_str f.intent,
       json_str "import_base" ++ ": " ++ json_opt_str f.import_base,
       json_str "is_test" ++ ": " ++ json_bool f.is_test,
       json_str "is_module_scope" ++ ": " ++ json_bool f.is_module_scope,
       json_str "function" ++ ": " ++ json_opt_str f.function,
       json_str "class_name" ++ ": " ++ json_opt_str f.class_name,
       json_str "nearby_comment" ++ ": " ++ json_opt_str f.nearby_comment,
       json_str "context" ++ ": " ++ json_str f.context,
       json_str "git_author" ++ ": " ++ json_opt_str f.git_author,
       json_str "git_commit" ++ ": " ++ json_opt_str f.git_commit,
       json_str "git_commit_date" ++ ": " ++ json_opt_str f.git_commit_date] ++
    "\x7d"

def report_json (findings : List Finding) : String :=
  "[" ++ join_with ", " (findings.map finding_json) ++ "]"

/-- `csv.writer` field quoting: quote when the field contains a comma,
quote, newline or carriage return; quotes are doubled. -/
def csv_field (s : String) : String :=
  if s.toList.any (fun c => c == ',' || c == '"' || c == '\n' || c == '\r') then
    "\"" ++ String.join (s.toList.map (fun c => if c == '"' then "\"\"" else String.mk [c])) ++
      "\""
  else s

def csv_row (cells : List String) : String :=
  join_with "," (cells.map csv_field) ++ "\r\n"

def py_bool_str : Bool → String
  | true => "True"
  | false => "False"

def report_csv (findings : List Finding) : String :=
  csv_row ["file", "line", "category", "import_base", "is_test", "is_module_scope",
           "intent", "code"] ++
    String.join (findings.map (fun f =>
      csv_row [f.file, toString f.line, f.category, f.import_base.getD "",
               py_bool_str f.is_test, py_bool_str f.is_module_scope, f.intent, f.code]))

structure RunArtifacts where
  out_dir : String
  report_json_text : String
  report_csv_text : String
  summary_head : String
deriving DecidableEq, Repr

/-- `write_reports` with blame enrichment disabled (the `--with-git`
branch shells out to `git blame` and is outside the embedding; every
claim below concerns runs with it off, so the `git_*` fields stay
`None`).  Of SUMMARY.md only its `Date:` header line is modelled; it is
where the wall clock enters the artifacts, besides the timestamped
directory name chosen by `main`. -/
def write_reports (findings : List Finding) (clock : String) : RunArtifacts :=
  { out_dir := clock
    report_json_text := report_json findings
    report_csv_text := report_csv findings
    summary_head := "# Monkey Patch Scan Summary\n\nDate: " ++ clock ++ "\n" }

structure RunOutcome where
  findings : List Finding
  parse_errors : Nat
  artifacts : RunArtifacts
  exit_code : Nat
deriving DecidableEq, Repr

/-- The scan loop and exit logic of `main` (after argument parsing and
file enumeration): scan each file in order, catching the strict-mode
parse exception (`parse_errors += 1; continue`), then write the
reports, then exit 1 iff strict mode saw parse errors, else 0. -/
def main_run (files : List PyFile) (project_pkgs : List String) (context_lines : Nat)
    (strict : Bool) (clock : String) : RunOutcome :=
  let outcomes := files.map (fun f => scan_file f project_pkgs context_lines strict)
  let all_findings := outcomes.flatMap outcome_findings
  let parse_errors := outcomes.countP (fun o =>
    match o with
    | .raised => true
    | .ok _ _ => false)
  { findings := all_findings
    parse_errors := parse_errors
    artifacts := write_reports all_findings clock
    exit_code := if strict && !(parse_errors == 0) then 1 else 0 }

/-! ### run_self_test

The eight bundled fixture files, written to a fresh temporary
directory.  Each source string starts with a newline (the files begin
with one blank line), so the statements start at line 2.  The
temporary directory contains no subdirectory, hence
the `pkgs` set comprehension over its subdirectories is empty, and
no fixture path contains a `tests` component. -/

def fixture_a : PyFile :=
  { parts := ["a_modscope_assign.py"]
    lines := ["", "import requests",
              "requests.adapters.DEFAULT_POOLSIZE = 1  # change pool size"]
    parsed := some
      [.importStmt [("requests", none)] 2,
       .assign [.attr (.attr (.name "requests") "adapters") "DEFAULT_POOLSIZE"]
         (.other []) 3] }

def fixture_b : PyFile :=
  { parts := ["b_setattr.py"]
    lines := ["", "import requests", "setattr(requests, \"api\", object())"]
    parsed := some
      [.importStmt [("requests", none)] 2,
       .exprStmt (.call 3 (.name "setattr")
         [.name "requests", .strLit "api", .call 3 (.name "object") []]) 3] }

def fixture_c : PyFile :=
  { parts := ["c_sysmodules.py"]
    lines := ["", "import sys", "sys.modules[\"foo\"] = object()"]
    parsed := some
      [.importStmt [("sys", none)] 2,
       .assign [.subscript (.attr (.name "sys") "modules") (.strLit "foo")]
         (.call 3 (.name "object") []) 3] }

def fixture_d : PyFile :=
  { parts := ["d_builtins.py"]
    lines := ["", "import builtins", "builtins.open = lambda *a, **k: None"]
    parsed := some
      [.importStmt [("builtins", none)] 2,
       .assign [.attr (.name "builtins") "open"] (.other []) 3] }

def fixture_e : PyFile :=
  { parts := ["e_patch_misuse.py"]
    lines := ["", "from unittest.mock import patch", "@patch(\"x.y.func\")",
              "def test_foo():", "    pass", "patch(\"x.y.func\")  # not context-managed"]
    parsed := some
      [.importFrom (some "unittest.mock") [("patch", none)] 2,
       .functionDef "test_foo" [(3, .call 3 (.name "patch") [.strLit "x.y.func"])]
         [.compound [] [] 5] 4,
       .exprStmt (.call 6 (.name "patch") [.strLit "x.y.func"]) 6] }

def fixture_f : PyFile :=
  { parts := ["f_env_mut.py"]
    lines := ["", "import os", "os.environ[\"SOME_KEY\"] = \"1\"",
              "os.environ.update(\x7b\"A\":\"b\"\x7d)"]
    parsed := some
      [.importStmt [("os", none)] 2,
       .assign [.subscript (.attr (.name "os") "environ") (.strLit "SOME_KEY")]
         (.strLit "1") 3,
       .exprStmt (.call 4 (.attr (.attr (.name "os") "environ") "update")
         [.other [.strLit "A", .strLit "b"]]) 4] }

def fixture_g : PyFile :=
  { parts := ["g_singleton_rebind.py"]
    lines := ["", "import logging", "logging.getLogger = lambda name=None: None"]
    parsed := some
      [.importStmt [("logging", none)] 2,
       .assign [.attr (.name "logging") "getLogger"] (.other []) 3] }

def fixture_h : PyFile :=
  { parts := ["h_from_import_attr.py"]
    lines := ["", "from somepkg import moduleX as mx", "mx.feature_flag = True"]
    parsed := some
      [.importFrom (some "somepkg") [("moduleX", some "mx")] 2,
       .assign [.attr (.name "mx") "feature_flag"] (.other []) 3] }

def sample_files : List PyFile :=
  [fixture_a, fixture_b, fixture_c, fixture_d, fixture_e, fixture_f, fixture_g, fixture_h]

def self_test_expected : List String :=
  [CATEGORY_ATTRIBUTE_REASSIGNMENT, CATEGORY_SETATTR, CATEGORY_SYS_MODULES,
   CATEGORY_BUILTINS, CATEGORY_TEST_PATCH_MISUSE, CATEGORY_GLOBAL_ENV,
   CATEGORY_SINGLETON_REBIND]

def self_test_findings (files : List PyFile) : List Finding :=
  (iter_python_files files DEFAULT_EXCLUDES).flatMap
    (fun f => scan_file_findings f [] DEFAULT_CONTEXT_LINES false)

/-- `run_self_test` on a file set (the source builds `sample_files` in
a temp dir and runs exactly this): exit 2 iff some expected category is
missing from the findings, else 0. -/
def run_self_test (files : List PyFile) : Nat :=
  let findings := self_test_findings files
  let missing :=
    self_test_expected.filter (fun c => !(findings.any (fun fd => fd.category == c)))
  if missing.isEmpty then 0 else 2

/-! ### The Risk Classifier (`monkey_patch_classify.py`) -/

namespace Classify

/-- The classifier reads findings back from `report.json`; its own
(frozen) `Finding` dataclass keeps only these fields. -/
structure Finding where
  file : String
  line : Nat
  category : String
  is_test : Bool
  is_module_scope : Bool
  import_base : Option String
deriving DecidableEq, Repr

/-- `classify` of `monkey_patch_classify.py`, verbatim rule chain. -/
def classify (f : Classify.Finding) : String :=
  if (f.category == "sys_modules_assignment" || f.category == "import_time_side_effect")
      && !f.is_test then "HIGH"
  else if f.category == "global_env_mutation" && !f.is_test && f.is_module_scope then "HIGH"
  else if f.category == "attribute_reassignment_on_import" && !f.is_test then "MODERATE"
  else if f.category == "global_env_mutation" && f.is_test then "MODERATE"
  else "SAFE"

end Classify

/- Spec-side rule table for the three tiers, written from the words of
the claim (to be compared with `Classify.classify`). -/

def spec_tier_high (f : Classify.Finding) : Prop :=
  ((f.category = "sys_modules_assignment" ∨ f.category = "import_time_side_effect") ∧
    f.is_test = false) ∨
  (f.category = "global_env_mutation" ∧ f.is_test = false ∧ f.is_module_scope = true)

def spec_tier_moderate (f : Classify.Finding) : Prop :=
  (f.category = "attribute_reassignment_on_import" ∧ f.is_test = false) ∨
  (f.category = "global_env_mutation" ∧ f.is_test = true)

/-! ### Concrete files used in theorems (checked by hand against CPython) -/

/-- `import requests` followed two lines later by a module-scope
`requests.api = object()` (the concrete scenario of the spec). -/
def requests_tree : List Stmt :=
  [.importStmt [("requests", none)] 1,
   .assign [.attr (.name "requests") "api"] (.call 3 (.name "object") []) 3]

def requests_file : PyFile :=
  { parts := ["req_scenario.py"]
    lines := ["import requests", "", "requests.api = object()"]
    parsed := some requests_tree }

/-- A `sys.modules` subscript assignment nested in a function body and
spread over several physical lines, so that no single line matches the
fallback pattern.  `ast.parse` gives the inner `Assign` line 2 (the
line of `sys.modules[`). -/
def nested_sys_file : PyFile :=
  { parts := ["nested_sys.py"]
    lines := ["def f():", "    sys.modules[", "        \"x\"", "    ] = 1"]
    parsed := some
      [.functionDef "f" []
        [.assign [.subscript (.attr (.name "sys") "modules") (.strLit "x")] (.other []) 2]
        1] }

/-- An `os.environ.update(...)` call nested in a function body (a
single ordinary line; none of the four fallback patterns covers
`update`/`setdefault` calls). -/
def nested_env_file : PyFile :=
  { parts := ["nested_env.py"]
    lines := ["import os", "def f():", "    os.environ.update(\x7b\"A\": \"b\"\x7d)"]
    parsed := some
      [.importStmt [("os", none)] 1,
       .functionDef "f" []
        [.exprStmt (.call 3 (.attr (.attr (.name "os") "environ") "update")
          [.other [.strLit "A", .strLit "b"]]) 3]
        2] }

/-- A bare module-scope rebinding of a name bound by a from-import,
one line below the import. -/
def bare_rebind_file : PyFile :=
  { parts := ["bare_rebind.py"]
    lines := ["from x import y", "y = 3"]
    parsed := some
      [.importFrom (some "x") [("y", none)] 1,
       .assign [.name "y"] (.other []) 2] }

/-- A chained assignment with two `sys.modules` subscript targets on
one line (one `ast.Assign` node with two targets). -/
def chained_sys_file : PyFile :=
  { parts := ["chained_sys.py"]
    lines := ["sys.modules[\"a\"] = sys.modules[\"b\"] = 1"]
    parsed := some
      [.assign
        [.subscript (.attr (.name "sys") "modules") (.strLit "a"),
         .subscript (.attr (.name "sys") "modules") (.strLit "b")]
        (.other []) 1] }

/-- `import a.b.c` with no alias, followed by a module-scope
`a.attr = object()`. -/
def dotted_import_file : PyFile :=
  { parts := ["dotted_import.py"]
    lines := ["import a.b.c", "a.attr = object()"]
    parsed := some
      [.importStmt [("a.b.c", none)] 1,
       .assign [.attr (.name "a") "attr"] (.call 2 (.name "object") []) 2] }

/-- A file that does not parse (used for the error-handling claims). -/
def broken_file : PyFile :=
  { parts := ["broken.py"]
    lines := ["def ("]
    parsed := none }

/-! ## Theorems -/

/-- The ScopeTracker push/pop discipline is balanced: its traversal of
a delegated definition node leaves the scanner's scope stack exactly as
it was.  This is what justifies that the scanner continues after a
definition statement with an unchanged stack. -/
theorem scope_visit_id :
    (∀ (st : List (String × String)) (s : Stmt), scope_visit_stmt st s = st) ∧
    (∀ (st : List (String × String)) (l : List Stmt), scope_visit_stmts st l = st) := by
  refine scope_visit_stmt.mutual_induct
    (fun st s => scope_visit_stmt st s = st)
    (fun st l => scope_visit_stmts st l = st) ?_ ?_ ?_ ?_ ?_ ?_ ?_
  · intro st n d body ℓ ih
    simp [scope_visit_stmt, ih]
  · intro st n d body ℓ ih
    simp [scope_visit_stmt, ih]
  · intro st n d body ℓ ih
    simp [scope_visit_stmt, ih]
  · intro st tests body ℓ ih
    simp [scope_visit_stmt, ih]
  · intro t st h1 h2 h3 h4
    cases t with
    | assign targets value ℓ => simp [scope_visit_stmt]
    | annAssign t others ℓ => simp [scope_visit_stmt]
    | augAssign t value ℓ => simp [scope_visit_stmt]
    | exprStmt value ℓ => simp [scope_visit_stmt]
    | delete targets ℓ => simp [scope_visit_stmt]
    | importStmt names ℓ => simp [scope_visit_stmt]
    | importFrom m names ℓ => simp [scope_visit_stmt]
    | functionDef n d b ℓ => exact absurd rfl (h1 n d b ℓ)
    | asyncFunctionDef n d b ℓ => exact absurd rfl (h2 n d b ℓ)
    | classDef n d b ℓ => exact absurd rfl (h3 n d b ℓ)
    | compound te b ℓ => exact absurd rfl (h4 te b ℓ)
  · intro st
    simp [scope_visit_stmts]
  · intro st s rest ih1 ih2
    rw [ih1] at ih2
    simp [scope_visit_stmts, ih1, ih2]

/-- Every event recorded while traversing an expression carries the
stack the traversal was entered with. -/
theorem scan_events_expr_stack (st : List (String × String)) :
    (∀ e : Expr, ∀ ev ∈ scan_events_expr st e, event_stack ev = st) ∧
    (∀ l : List Expr, ∀ ev ∈ scan_events_exprs st l, event_stack ev = st) := by
  refine scan_events_expr.mutual_induct st
    (fun e => ∀ ev ∈ scan_events_expr st e, event_stack ev = st)
    (fun l => ∀ ev ∈ scan_events_exprs st l, event_stack ev = st) ?_ ?_ ?_ ?_ ?_ ?_ ?_ ?_
  · intro i ev hev
    simp [scan_events_expr] at hev
  · intro s ev hev
    simp [scan_events_expr] at hev
  · intro v a ih ev hev
    exact ih ev (by simpa [scan_events_expr] using hev)
  · intro v s ih1 ih2 ev hev
    simp only [scan_events_expr, List.mem_append] at hev
    rcases hev with h | h
    · exact ih1 ev h
    · exact ih2 ev h
  · intro ℓ f args ih1 ih2 ev hev
    simp only [scan_events_expr, List.cons_append, List.nil_append, List.mem_cons,
      List.mem_append] at hev
    rcases hev with rfl | h | h
    · rfl
    · exact ih1 ev h
    · exact ih2 ev h
  · intro children ih ev hev
    exact ih ev (by simpa [scan_events_expr] using hev)
  · intro ev hev
    simp [scan_events_exprs] at hev
  · intro e rest ih1 ih2 ev hev
    simp only [scan_events_exprs, List.mem_append] at hev
    rcases hev with h | h
    · exact ih1 ev h
    · exact ih2 ev h

/-- Every event recorded while traversing a statement list carries the
stack the traversal was entered with (for the scanner the stack is
never pushed: definitions are delegated). -/
theorem scan_events_stmt_stack (st : List (String × String)) :
    (∀ s : Stmt, ∀ ev ∈ scan_events_stmt st s, event_stack ev = st) ∧
    (∀ l : List Stmt, ∀ ev ∈ scan_events_stmts st l, event_stack ev = st) := by
  refine scan_events_stmt.mutual_induct st
    (fun s => ∀ ev ∈ scan_events_stmt st s, event_stack ev = st)
    (fun l => ∀ ev ∈ scan_events_stmts st l, event_stack ev = st)
    ?_ ?_ ?_ ?_ ?_ ?_ ?_ ?_ ?_ ?_ ?_ ?_ ?_ ?_ ?_
  · intro targets value ℓ ev hev
    simp only [scan_events_stmt, List.mem_append, List.mem_map] at hev
    rcases hev with (⟨t, _, rfl⟩ | h) | h
    · rfl
    · exact (scan_events_expr_stack st).2 targets ev h
    · exact (scan_events_expr_stack st).1 value ev h
  · intro t others ℓ ev hev
    simp only [scan_events_stmt, List.mem_append, List.mem_singleton] at hev
    rcases hev with (rfl | h) | h
    · rfl
    · exact (scan_events_expr_stack st).1 t ev h
    · exact (scan_events_expr_stack st).2 others ev h
  · intro t value ℓ ev hev
    simp only [scan_events_stmt, List.mem_append, List.mem_singleton] at hev
    rcases hev with (rfl | h) | h
    · rfl
    · exact (scan_events_expr_stack st).1 t ev h
    · exact (scan_events_expr_stack st).1 value ev h
  · intro value ℓ ev hev
    exact (scan_events_expr_stack st).1 value ev (by simpa [scan_events_stmt] using hev)
  · intro targets ℓ ev hev
    simp only [scan_events_stmt, List.mem_append, List.mem_map] at hev
    rcases hev with ⟨t, _, rfl⟩ | h
    · rfl
    · exact (scan_events_expr_stack st).2 targets ev h
  · intro names ℓ ev hev
    simp [scan_events_stmt] at hev
  · intro m names ℓ ev hev
    simp [scan_events_stmt] at hev
  · intro n d body ℓ hcur ev hev
    simp only [scan_events_stmt, if_pos hcur, List.mem_map] at hev
    obtain ⟨p, _, rfl⟩ := hev
    rfl
  · intro n d body ℓ hcur ev hev
    rw [scan_events_stmt, if_neg hcur] at hev
    simp at hev
  · intro n d body ℓ ev hev
    simp [scan_events_stmt] at hev
  · intro n d body ℓ hcur ev hev
    simp only [scan_events_stmt, if_pos hcur, List.mem_map] at hev
    obtain ⟨p, _, rfl⟩ := hev
    rfl
  · intro n d body ℓ hcur ev hev
    rw [scan_events_stmt, if_neg hcur] at hev
    simp at hev
  · intro tests body ℓ ih ev hev
    simp only [scan_events_stmt, List.mem_append] at hev
    rcases hev with h | h
    · exact (scan_events_expr_stack st).2 tests ev h
    · exact ih ev h
  · intro ev hev
    simp [scan_events_stmts] at hev
  · intro s rest ih1 ih2 ev hev
    simp only [scan_events_stmts, List.mem_append] at hev
    rcases hev with h | h
    · exact ih1 ev h
    · exact ih2 ev h

/-- Findings emitted for a recorded event are in the tree-pass output. -/
theorem mem_tree_findings_of_event (ctx : ScanCtx) (tree : List Stmt) (e : ScanEvent)
    (he : e ∈ scan_events_stmts [] tree) (f : Finding) (hf : f ∈ emit_event ctx e) :
    f ∈ tree_findings ctx tree :=
  List.mem_flatMap.mpr ⟨e, he, hf⟩

/-- A reached assignment target comes from a recorded event with the
empty stack. -/
theorem reach_assign_event {tree : List Stmt} {ℓ : Nat} {t : Expr}
    (h : (ℓ, t) ∈ reach_assign_targets tree) :
    ScanEvent.assignTarget [] ℓ t ∈ scan_events_stmts [] tree := by
  unfold reach_assign_targets at h
  obtain ⟨e, he, hm⟩ := List.mem_filterMap.mp h
  cases e with
  | assignTarget st ℓ2 t2 =>
    simp only [Option.some.injEq, Prod.mk.injEq] at hm
    obtain ⟨rfl, rfl⟩ := hm
    have hst := (scan_events_stmt_stack []).2 tree _ he
    simp only [event_stack] at hst
    rwa [hst] at he
  | callExpr st ℓ2 f args => simp at hm
  | deleteTarget st ℓ2 t2 => simp at hm
  | decorator st ℓ2 dec fn cl => simp at hm

theorem scope_current_nil : scope_current [] = (true, none, none) := rfl

theorem add_finding_module_scope (ctx : ScanCtx) (ℓ : Nat) (c : String)
    (b : Option String) (ms : Bool) (fn cl : Option String) :
    (add_finding ctx ℓ c b ms fn cl).is_module_scope = ms := rfl

/-- Every finding emitted for an event recorded at the empty stack is
tagged module scope: the detection callbacks pass `scope.current()[0]`
(true on the empty stack) or the literal `True` (decorators). -/
theorem emit_module_scope (ctx : ScanCtx) (e : ScanEvent)
    (hst : event_stack e = []) :
    ∀ f ∈ emit_event ctx e, f.is_module_scope = true := by
  intro f hf
  cases e with
  | assignTarget st ℓ t =>
    simp only [event_stack] at hst
    subst hst
    simp only [emit_event] at hf
    unfold handle_assignment_target at hf
    simp only [scope_current_nil] at hf
    repeat' split at hf
    all_goals simp_all [List.mem_append, List.mem_singleton, add_finding_module_scope]
    all_goals rcases hf with rfl | rfl <;> rfl
  | callExpr st ℓ fn args =>
    simp only [event_stack] at hst
    subst hst
    simp only [emit_event] at hf
    unfold visit_Call_emit at hf
    simp only [scope_current_nil] at hf
    simp only [List.mem_append] at hf
    rcases hf with ((h | h) | h) | h
    all_goals repeat' split at h
    all_goals simp_all [List.mem_singleton, add_finding_module_scope]
  | deleteTarget st ℓ t =>
    simp only [event_stack] at hst
    subst hst
    simp only [emit_event] at hf
    unfold visit_Delete_emit at hf
    simp only [scope_current_nil] at hf
    split at hf
    all_goals simp_all [List.mem_singleton, add_finding_module_scope]
  | decorator st ℓ dec fn cl =>
    simp only [emit_event] at hf
    unfold decorator_emit at hf
    split at hf
    all_goals simp_all [List.mem_singleton, add_finding_module_scope]

theorem fallback_finding_module_scope (ctx : ScanCtx) (ℓ : Nat) (c : String) :
    (fallback_finding ctx ℓ c).is_module_scope = true := rfl

/-- C1.  Every Finding produced by `scan_file` has
`is_module_scope = True`: the tree pass delegates definition bodies to
the ScopeTracker (which emits nothing), so detection only fires on the
empty scope stack; decorator findings pass the literal `True`; every
regex-fallback finding sets it to `True` unconditionally. -/
theorem C1_every_finding_module_scope :
    ∀ (file : PyFile) (pkgs : List String) (cl : Nat) (strict : Bool) (f : Finding),
      f ∈ scan_file_findings file pkgs cl strict → f.is_module_scope = true := by
  intro file pkgs cl strict f hf
  unfold scan_file_findings scan_file at hf
  have tree_part : ∀ (tree : List Stmt) (ctx : ScanCtx),
      f ∈ tree_findings ctx tree → f.is_module_scope = true := by
    intro tree ctx h
    obtain ⟨e, he, hfe⟩ := List.mem_flatMap.mp h
    exact emit_module_scope ctx e ((scan_events_stmt_stack []).2 tree e he) f hfe
  cases hp : file.parsed with
  | none =>
    rw [hp] at hf
    cases strict <;> simp [outcome_findings] at hf
  | some tree =>
    rw [hp] at hf
    cases strict with
    | true =>
      simp only [if_pos, outcome_findings] at hf
      exact tree_part tree _ hf
    | false =>
      simp only [Bool.false_eq_true, if_false, outcome_findings, List.mem_append] at hf
      rcases hf with h | h
      · exact tree_part tree _ h
      · obtain ⟨p, _, hp2⟩ := List.mem_filterMap.mp h
        split at hp2
        · exact absurd hp2 (by simp)
        · simp only [Option.some.injEq] at hp2
          rw [← hp2]
          exact fallback_finding_module_scope _ _ _

/-- Witness for C1: the first finding of the `sys.modules` fixture is
tagged module scope, by the theorem applied at a concrete input. -/
theorem C1_every_finding_module_scope_witness :
    ((scan_file_findings fixture_c [] DEFAULT_CONTEXT_LINES false).headD default).is_module_scope
      = true :=
  C1_every_finding_module_scope fixture_c [] DEFAULT_CONTEXT_LINES false _ (by decide)

/-- C2.  The claim reads: every source file containing a
`sys.modules[...] = ...` assignment at any scope yields at least one
`sys_modules_assignment` Finding.  The code misses it: the tree pass
never enters function or class bodies (delegation to the ScopeTracker),
and the line-based fallback pattern cannot match an assignment spread
over several physical lines.  `nested_sys_file` contains such an
assignment (at line 2, inside `def f`), yet scanning it in either mode
returns no findings at all. -/
theorem C2_nested_sys_modules_assignment_missed :
    (∃ p ∈ all_assign_targets_stmts (nested_sys_file.parsed.getD []),
      is_sys_modules p.2 = true) ∧
    scan_file_findings nested_sys_file [] DEFAULT_CONTEXT_LINES false = [] ∧
    scan_file_findings nested_sys_file [] DEFAULT_CONTEXT_LINES true = [] := by
  refine ⟨by decide, by decide, by decide⟩

/-- C3.  The claim reads: every source file containing an assignment to
a subscript of `os.environ` or a call to `os.environ.update(...)` /
`os.environ.setdefault(...)`, at any scope, yields at least one
`global_env_mutation` Finding.  The code misses nested `update` /
`setdefault` calls entirely: the tree pass never enters function
bodies, and none of the four fallback regexes covers these calls.
`nested_env_file` contains `os.environ.update(...)` with a dict argument inside `def f`
(line 3), yet scanning it in either mode returns no findings. -/
theorem C3_nested_env_update_missed :
    (∃ c ∈ all_calls_stmts (nested_env_file.parsed.getD []),
      is_env_update_call c.2.1 = true) ∧
    scan_file_findings nested_env_file [] DEFAULT_CONTEXT_LINES false = [] ∧
    scan_file_findings nested_env_file [] DEFAULT_CONTEXT_LINES true = [] := by
  refine ⟨by decide, by decide, by decide⟩

theorem add_finding_category (ctx : ScanCtx) (ℓ : Nat) (c : String)
    (b : Option String) (ms : Bool) (fn cl : Option String) :
    (add_finding ctx ℓ c b ms fn cl).category = c := rfl

theorem add_finding_line (ctx : ScanCtx) (ℓ : Nat) (c : String)
    (b : Option String) (ms : Bool) (fn cl : Option String) :
    (add_finding ctx ℓ c b ms fn cl).line = ℓ := rfl

theorem add_finding_base (ctx : ScanCtx) (ℓ : Nat) (c : String)
    (b : Option String) (ms : Bool) (fn cl : Option String) :
    (add_finding ctx ℓ c b ms fn cl).import_base = b := rfl

/-- In `_handle_assignment`, when the target is an attribute and the
emitted finding is an `attribute_reassignment_on_import` one, the
emission came from the alias-resolution branch; if moreover the
statement is near an import, the same branch also emitted the
`import_time_side_effect` finding with the same base. -/
theorem handle_attr_near_import (ctx : ScanCtx) (ℓ : Nat) (v : Expr) (a : String)
    (f : Finding) (hf : f ∈ handle_assignment_target ctx [] ℓ (.attr v a))
    (hcat : f.category = CATEGORY_ATTRIBUTE_REASSIGNMENT)
    (hnear : near_import ℓ ctx.resolver.import_lines 5 = true) :
    ∃ b : String, f = add_finding ctx ℓ CATEGORY_ATTRIBUTE_REASSIGNMENT (some b) true none none ∧
      add_finding ctx ℓ CATEGORY_IMPORT_TIME (some b) true none none ∈
        handle_assignment_target ctx [] ℓ (.attr v a) := by
  unfold handle_assignment_target at hf ⊢
  simp only [scope_current_nil] at hf ⊢
  repeat' split at hf
  all_goals simp_all [List.mem_append, List.mem_singleton, add_finding_category,
    CATEGORY_SYS_MODULES, CATEGORY_BUILTINS, CATEGORY_GLOBAL_ENV,
    CATEGORY_SINGLETON_REBIND, CATEGORY_ATTRIBUTE_REASSIGNMENT, CATEGORY_IMPORT_TIME]
  all_goals
    rcases hf with rfl | rfl
    · exact ⟨_, rfl, Or.inr rfl⟩
    · simp [add_finding_category] at hcat

/-- C4 (amended).  Whenever the tree pass emits an
`attribute_reassignment_on_import` Finding **for an assignment to an
attribute target** (the amendment: bare rebindings of from-imported
names emit only the attribute finding, see the counterexample) at
module scope whose line is within 5 lines of some import statement of
the file, it also emits an `import_time_side_effect` Finding at the
same line with the same import base.  Concrete scenario: for a file
with `import requests` followed two lines later by a module-scope
`requests.api = object()`, exactly one Finding of each of the two
categories is emitted, both with import base `requests` and
`is_module_scope = true`. -/
theorem C4_import_time_accompanies_attr_target :
    (∀ (file : PyFile) (tree : List Stmt) (pkgs : List String) (cl ℓ : Nat)
        (v : Expr) (a : String) (f : Finding),
      file.parsed = some tree →
      (ℓ, Expr.attr v a) ∈ reach_assign_targets tree →
      f ∈ handle_assignment_target (file_ctx file pkgs cl tree) [] ℓ (.attr v a) →
      f.category = CATEGORY_ATTRIBUTE_REASSIGNMENT →
      near_import ℓ (file_resolver tree).import_lines 5 = true →
      f ∈ file_tree_findings file pkgs cl ∧
        ∃ g ∈ file_tree_findings file pkgs cl,
          g.category = CATEGORY_IMPORT_TIME ∧ g.line = ℓ ∧
            g.import_base = f.import_base ∧ g.is_module_scope = true) ∧
    ((scan_file_findings requests_file [] DEFAULT_CONTEXT_LINES false).countP
        (fun f => f.category == CATEGORY_ATTRIBUTE_REASSIGNMENT) = 1 ∧
      (scan_file_findings requests_file [] DEFAULT_CONTEXT_LINES false).countP
        (fun f => f.category == CATEGORY_IMPORT_TIME) = 1 ∧
      ∀ f ∈ scan_file_findings requests_file [] DEFAULT_CONTEXT_LINES false,
        f.import_base = some "requests" ∧ f.is_module_scope = true ∧ f.line = 3) := by
  constructor
  · intro file tree pkgs cl ℓ v a f hp hreach hf hcat hnear
    have hev := reach_assign_event hreach
    have hemit : f ∈ emit_event (file_ctx file pkgs cl tree) (.assignTarget [] ℓ (.attr v a)) :=
      hf
    have hmemf : f ∈ tree_findings (file_ctx file pkgs cl tree) tree :=
      mem_tree_findings_of_event _ tree _ hev f hemit
    have hctxres : (file_ctx file pkgs cl tree).resolver = file_resolver tree := rfl
    obtain ⟨b, hfb, hg⟩ :=
      handle_attr_near_import (file_ctx file pkgs cl tree) ℓ v a f hf hcat
        (by rwa [hctxres])
    have hmemg := mem_tree_findings_of_event (file_ctx file pkgs cl tree) tree _ hev _ hg
    have hftf : file_tree_findings file pkgs cl =
        tree_findings (file_ctx file pkgs cl tree) tree := by
      unfold file_tree_findings
      rw [hp]
    refine ⟨by rwa [hftf], ?_⟩
    refine ⟨add_finding (file_ctx file pkgs cl tree) ℓ CATEGORY_IMPORT_TIME (some b) true
      none none, by rwa [hftf], rfl, rfl, ?_, rfl⟩
    rw [hfb]
    rfl
  · exact ⟨by decide, by decide, by decide⟩

/-- Counterexample to C4 as stated: a bare module-scope rebinding of a
from-imported name (`from x import y` then `y = 3` on the next line)
produces an `attribute_reassignment_on_import` Finding at module scope
within 5 lines of the import, but no `import_time_side_effect` Finding
at all. -/
theorem C4_counterexample_bare_rebind :
    (∃ f ∈ file_tree_findings bare_rebind_file [] DEFAULT_CONTEXT_LINES,
      f.category = CATEGORY_ATTRIBUTE_REASSIGNMENT ∧ f.is_module_scope = true ∧
        near_import f.line
          (file_resolver (bare_rebind_file.parsed.getD [])).import_lines 5 = true) ∧
    ∀ g ∈ scan_file_findings bare_rebind_file [] DEFAULT_CONTEXT_LINES false,
      g.category ≠ CATEGORY_IMPORT_TIME := by
  refine ⟨by decide, by decide⟩

/-- Witness for C4, by applying the theorem at the concrete scenario
file. -/
theorem C4_import_time_accompanies_attr_target_witness :
    ∃ g ∈ file_tree_findings requests_file [] DEFAULT_CONTEXT_LINES,
      g.category = CATEGORY_IMPORT_TIME ∧ g.line = 3 ∧
        g.import_base = some "requests" ∧ g.is_module_scope = true := by
  have h := (C4_import_time_accompanies_attr_target.1 requests_file requests_tree []
    DEFAULT_CONTEXT_LINES 3 (Expr.name "requests") "api"
    ((file_tree_findings requests_file [] DEFAULT_CONTEXT_LINES).headD default)
    rfl
    (by rw [show reach_assign_targets requests_tree =
        [(3, Expr.attr (Expr.name "requests") "api")] from rfl]
        exact List.mem_singleton.mpr rfl)
    (by decide) (by decide) (by decide)).2
  obtain ⟨g, hg, h1, h2, h3, h4⟩ := h
  refine ⟨g, hg, h1, h2, ?_, h4⟩
  rw [h3]
  decide

/-- C5.  The Risk Classifier maps every Finding to exactly one of the
three tiers by the stated rule table: HIGH iff (sys_modules_assignment
or import_time_side_effect, outside tests) or (global_env_mutation,
outside tests, at module scope); MODERATE iff
(attribute_reassignment_on_import outside tests) or
(global_env_mutation inside tests); SAFE in every other case, in
particular attribute_reassignment_on_import inside tests and
test_patch_misuse regardless of flags. -/
theorem C5_classify_rule_table :
    ∀ f : Classify.Finding,
      (Classify.classify f = "HIGH" ↔ spec_tier_high f) ∧
      (Classify.classify f = "MODERATE" ↔ spec_tier_moderate f) ∧
      (Classify.classify f = "SAFE" ↔ ¬spec_tier_high f ∧ ¬spec_tier_moderate f) ∧
      (Classify.classify f = "HIGH" ∨ Classify.classify f = "MODERATE" ∨
        Classify.classify f = "SAFE") ∧
      (f.category = "test_patch_misuse" → Classify.classify f = "SAFE") ∧
      (f.category = "attribute_reassignment_on_import" → f.is_test = true →
        Classify.classify f = "SAFE") := by
  intro f
  rcases f with ⟨file, line, cat, ht, hm, ib⟩
  by_cases h1 : cat = "sys_modules_assignment" <;>
    by_cases h2 : cat = "import_time_side_effect" <;>
      by_cases h3 : cat = "global_env_mutation" <;>
        by_cases h4 : cat = "attribute_reassignment_on_import" <;>
          by_cases h5 : cat = "test_patch_misuse" <;>
            cases ht <;> cases hm <;>
              simp_all [Classify.classify, spec_tier_high, spec_tier_moderate]

/-- Witness for C5 at a concrete Finding: `test_patch_misuse` inside a
test file is tiered SAFE. -/
theorem C5_classify_rule_table_witness :
    Classify.classify
      { file := "tests/x.py", line := 1, category := "test_patch_misuse",
        is_test := true, is_module_scope := true, import_base := some "unittest" } = "SAFE" :=
  (C5_classify_rule_table
    { file := "tests/x.py", line := 1, category := "test_patch_misuse",
      is_test := true, is_module_scope := true,
      import_base := some "unittest" }).2.2.2.2.1 rfl

theorem fallback_finding_line (ctx : ScanCtx) (ℓ : Nat) (c : String) :
    (fallback_finding ctx ℓ c).line = ℓ := rfl

theorem fallback_finding_category (ctx : ScanCtx) (ℓ : Nat) (c : String) :
    (fallback_finding ctx ℓ c).category = c := rfl

/-- C6 (amended).  When the regex fallback would flag a
`(line, category)` key already flagged by the tree pass, the regex hit
is discarded: the merged output contains exactly the tree-pass findings
at that key; in particular exactly one Finding when the tree pass
flagged the key exactly once.  (As stated the claim said "exactly one"
unconditionally; the tree pass can emit several findings at one key,
e.g. for a chained assignment — see the counterexample.) -/
theorem C6_dedup_discards_regex_hit :
    ∀ (file : PyFile) (pkgs : List String) (cl ℓ : Nat) (cat : String),
      (ℓ, cat) ∈ regex_fallback file.lines →
      0 < (file_tree_findings file pkgs cl).countP
          (fun f => f.line == ℓ && f.category == cat) →
      ((scan_file_findings file pkgs cl false).countP
            (fun f => f.line == ℓ && f.category == cat) =
          (file_tree_findings file pkgs cl).countP
            (fun f => f.line == ℓ && f.category == cat)) ∧
        ((file_tree_findings file pkgs cl).countP
            (fun f => f.line == ℓ && f.category == cat) = 1 →
          (scan_file_findings file pkgs cl false).countP
            (fun f => f.line == ℓ && f.category == cat) = 1) := by
  intro file pkgs cl ℓ cat hhit htree
  cases hp : file.parsed with
  | none =>
    unfold file_tree_findings at htree
    rw [hp] at htree
    simp at htree
  | some tree =>
    have hftf : file_tree_findings file pkgs cl =
        tree_findings (file_ctx file pkgs cl tree) tree := by
      unfold file_tree_findings
      rw [hp]
    have hsff : scan_file_findings file pkgs cl false =
        tree_findings (file_ctx file pkgs cl tree) tree ++
          fallback_additions (file_ctx file pkgs cl tree)
            (tree_findings (file_ctx file pkgs cl tree) tree) file.lines := by
      unfold scan_file_findings scan_file
      rw [hp]
      simp [outcome_findings]
    rw [hftf] at htree ⊢
    rw [hsff]
    have hzero : (fallback_additions (file_ctx file pkgs cl tree)
        (tree_findings (file_ctx file pkgs cl tree) tree) file.lines).countP
          (fun f => f.line == ℓ && f.category == cat) = 0 := by
      rw [List.countP_eq_zero]
      intro a ha hpa
      obtain ⟨h, hh, hsome⟩ := List.mem_filterMap.mp ha
      by_cases hseen : ((tree_findings (file_ctx file pkgs cl tree) tree).map
          (fun f => (f.line, f.category))).contains h
      · rw [if_pos hseen] at hsome
        exact absurd hsome (by simp)
      · rw [if_neg hseen] at hsome
        simp only [Option.some.injEq] at hsome
        subst hsome
        simp only [fallback_finding_line, fallback_finding_category, Bool.and_eq_true,
          beq_iff_eq] at hpa
        obtain ⟨h1, h2⟩ := hpa
        apply hseen
        obtain ⟨f0, hf0, hpf0⟩ := List.countP_pos_iff.mp htree
        simp only [Bool.and_eq_true, beq_iff_eq] at hpf0
        have : h = (ℓ, cat) := by
          cases h
          simp_all
        subst this
        have : (ℓ, cat) ∈ (tree_findings (file_ctx file pkgs cl tree) tree).map
            (fun f => (f.line, f.category)) := by
          refine List.mem_map.mpr ⟨f0, hf0, ?_⟩
          rw [hpf0.1, hpf0.2]
        exact List.elem_eq_true_of_mem this
    constructor
    · rw [List.countP_append, hzero]
      omega
    · intro h1
      rw [List.countP_append, hzero, h1]


/-- Counterexample to C6 as stated ("exactly one Finding with that
key"): for the chained assignment
`sys.modules["a"] = sys.modules["b"] = 1` both passes would flag the
key `(line 1, sys_modules_assignment)`, yet the output holds two
Findings with that key (both from the tree pass; the regex hit is the
one that is discarded). -/
theorem C6_counterexample_chained_assignment :
    (1, CATEGORY_SYS_MODULES) ∈ regex_fallback chained_sys_file.lines ∧
    (scan_file_findings chained_sys_file [] DEFAULT_CONTEXT_LINES false).countP
      (fun f => f.line == 1 && f.category == CATEGORY_SYS_MODULES) = 2 := by
  refine ⟨by decide, by decide⟩

/-- Witness for C6, by applying the theorem at the chained-assignment
file. -/
theorem C6_dedup_discards_regex_hit_witness :
    (scan_file_findings chained_sys_file [] DEFAULT_CONTEXT_LINES false).countP
        (fun f => f.line == 1 && f.category == CATEGORY_SYS_MODULES) =
      (file_tree_findings chained_sys_file [] DEFAULT_CONTEXT_LINES).countP
        (fun f => f.line == 1 && f.category == CATEGORY_SYS_MODULES) :=
  (C6_dedup_discards_regex_hit chained_sys_file [] DEFAULT_CONTEXT_LINES 1
    CATEGORY_SYS_MODULES (by decide) (by decide)).1

/-- C7.  Parse-failure handling: in default (non-strict) mode the
failure is recovered locally (`scan_file` returns no findings for the
file and logs the parse error) and the exit code of the run is
unaffected (always 0); in strict mode the run still scans all other
files and writes the reports from their findings, and exits with
code 1. -/
theorem C7_parse_failure_handling :
    (∀ (file : PyFile) (pkgs : List String) (cl : Nat),
      file.parsed = none →
      scan_file file pkgs cl false = ScanOutcome.ok [] true) ∧
    (∀ (files : List PyFile) (pkgs : List String) (cl : Nat) (clock : String),
      (main_run files pkgs cl false clock).exit_code = 0) ∧
    (∀ (files : List PyFile) (pkgs : List String) (cl : Nat) (clock : String),
      (∃ file ∈ files, file.parsed = none) →
      (main_run files pkgs cl true clock).exit_code = 1 ∧
        (main_run files pkgs cl true clock).findings =
          files.flatMap (fun f => scan_file_findings f pkgs cl true) ∧
        (main_run files pkgs cl true clock).artifacts.report_json_text =
          report_json (files.flatMap (fun f => scan_file_findings f pkgs cl true)) ∧
        (main_run files pkgs cl true clock).artifacts.report_csv_text =
          report_csv (files.flatMap (fun f => scan_file_findings f pkgs cl true))) := by
  refine ⟨?_, ?_, ?_⟩
  · intro file pkgs cl hp
    unfold scan_file
    rw [hp]
    rfl
  · intro files pkgs cl clock
    simp [main_run]
  · intro files pkgs cl clock ⟨file, hfile, hp⟩
    have herr : 0 < (files.map (fun f => scan_file f pkgs cl true)).countP (fun o =>
        match o with
        | .raised => true
        | .ok _ _ => false) := by
      rw [List.countP_pos_iff]
      refine ⟨ScanOutcome.raised, List.mem_map.mpr ⟨file, hfile, ?_⟩, rfl⟩
      unfold scan_file
      rw [hp]
      rfl
    have hlist : (files.map (fun f => scan_file f pkgs cl true)).flatMap outcome_findings =
        files.flatMap (fun f => scan_file_findings f pkgs cl true) := by
      simp [List.flatMap_map, scan_file_findings]
    have hfind : (main_run files pkgs cl true clock).findings =
        files.flatMap (fun f => scan_file_findings f pkgs cl true) := by
      simp only [main_run]
      exact hlist
    refine ⟨?_, hfind, ?_, ?_⟩
    · have hcond : (true && !((files.map (fun f => scan_file f pkgs cl true)).countP
          (fun o =>
            match o with
            | ScanOutcome.raised => true
            | ScanOutcome.ok _ _ => false) == 0)) = true := by
        rw [Bool.true_and, Bool.not_eq_true', beq_eq_false_iff_ne]
        exact Nat.pos_iff_ne_zero.mp herr
      simp only [main_run, hcond, if_true]
    · simp only [main_run, write_reports]
      rw [hlist]
    · simp only [main_run, write_reports]
      rw [hlist]

/-- Witness for C7 at concrete inputs: one unparsable file among the
inputs leaves the non-strict exit code at 0 and makes the strict run
exit 1. -/
theorem C7_parse_failure_handling_witness :
    scan_file broken_file [] DEFAULT_CONTEXT_LINES false = ScanOutcome.ok [] true ∧
    (main_run [broken_file, fixture_c] [] DEFAULT_CONTEXT_LINES false "ts").exit_code = 0 ∧
    (main_run [broken_file, fixture_c] [] DEFAULT_CONTEXT_LINES true "ts").exit_code = 1 :=
  ⟨C7_parse_failure_handling.1 broken_file [] DEFAULT_CONTEXT_LINES rfl,
   C7_parse_failure_handling.2.1 [broken_file, fixture_c] [] DEFAULT_CONTEXT_LINES "ts",
   (C7_parse_failure_handling.2.2 [broken_file, fixture_c] [] DEFAULT_CONTEXT_LINES "ts"
     ⟨broken_file, List.Mem.head _, rfl⟩).1⟩

/-- C8.  `--self-test` scans the bundled fixtures and returns exit
code 2 iff at least one of the seven exercised categories is absent
from the findings, 0 otherwise; on the bundled fixture set all seven
categories are detected, so it exits 0. -/
theorem C8_self_test :
    run_self_test sample_files = 0 ∧
    (∀ c ∈ self_test_expected,
      ∃ fd ∈ self_test_findings sample_files, fd.category = c) ∧
    (∀ files : List PyFile,
      ((∃ c ∈ self_test_expected, ∀ fd ∈ self_test_findings files, fd.category ≠ c) →
        run_self_test files = 2) ∧
      ((∀ c ∈ self_test_expected, ∃ fd ∈ self_test_findings files, fd.category = c) →
        run_self_test files = 0)) := by
  refine ⟨by decide, by decide, ?_⟩
  intro files
  constructor
  · intro ⟨c, hc, hnone⟩
    unfold run_self_test
    rw [if_neg]
    intro hempty
    have hmem : c ∈ self_test_expected.filter
        (fun c => !((self_test_findings files).any (fun fd => fd.category == c))) := by
      rw [List.mem_filter]
      refine ⟨hc, ?_⟩
      rw [Bool.not_eq_true', List.any_eq_false]
      intro fd hfd
      simp only [beq_iff_eq]
      exact hnone fd hfd
    rw [List.isEmpty_iff] at hempty
    rw [hempty] at hmem
    exact absurd hmem (List.not_mem_nil c)
  · intro hall
    unfold run_self_test
    rw [if_pos]
    rw [List.isEmpty_iff, List.filter_eq_nil_iff]
    intro c hc
    obtain ⟨fd, hfd, hcat⟩ := hall c hc
    simp only [Bool.not_eq_true', Bool.not_eq_false, List.any_eq_true]
    exact ⟨fd, hfd, by simp [hcat]⟩

/-- Witness for C8, applying the exit-rule branch at the bundled
fixtures. -/
theorem C8_self_test_witness : run_self_test sample_files = 0 :=
  (C8_self_test.2.2 sample_files).2 (by decide)

/-- C9.  With blame enrichment off, the report artifacts are a pure
function of the file contents and configuration: the only run-to-run
varying input of the model — the wall-clock string used for the output
directory name and the SUMMARY.md date line — does not influence the
bytes of report.json or report.csv, nor the finding order. -/
theorem C9_reports_deterministic :
    ∀ (files : List PyFile) (pkgs : List String) (cl : Nat) (strict : Bool)
      (clock1 clock2 : String),
      (main_run files pkgs cl strict clock1).artifacts.report_json_text =
        (main_run files pkgs cl strict clock2).artifacts.report_json_text ∧
      (main_run files pkgs cl strict clock1).artifacts.report_csv_text =
        (main_run files pkgs cl strict clock2).artifacts.report_csv_text ∧
      (main_run files pkgs cl strict clock1).findings =
        (main_run files pkgs cl strict clock2).findings := by
  intro files pkgs cl strict clock1 clock2
  exact ⟨rfl, rfl, rfl⟩

/-- C10.  A plain `import a.b.c` with no alias maps only the last
dotted component `c` to the full path in the alias table; the name the
statement actually binds at runtime (`a`) gets no entry, so a
module-scope `a.attr = ...` fails alias resolution and the scan of
such a file produces no finding at all. -/
theorem C10_dotted_import_binds_last_component :
    (∀ (m : String) (ℓ : Nat),
      (file_resolver [Stmt.importStmt [(m, none)] ℓ]).alias_to_module =
        [(last_component m, m)] ∧
      (file_resolver [Stmt.importStmt [(m, none)] ℓ]).import_lines = [ℓ]) ∧
    alookup (file_resolver (dotted_import_file.parsed.getD [])).alias_to_module "a" = none ∧
    scan_file_findings dotted_import_file [] DEFAULT_CONTEXT_LINES false = [] := by
  refine ⟨?_, by decide, by decide⟩
  intro m ℓ
  exact ⟨rfl, rfl⟩
